import Mathlib

/-!
# server1.js: an HTTP gateway in front of a document store

A shallow embedding of `src/server1.js`.  The Express application is a chain of
middleware (`express.json()`, `cors()`, `express.static`, the request logger, the
routes, the error handler).  A request is run through that chain by `app`, which
returns the response sent, the messages handed to `logActivity` (in order), the
calls made on the store (in order) and the store's new state.

What lies outside `server1.js` is modelled as follows.

* The document store is a parameter (`Store`): six operations that, from a state
  of the store, give the value handed to the callback (`err` or `result`) and the
  next state.
* `db` is `none` until the connect callback has assigned it.
* The driver's `ObjectID` (string inputs only: a path parameter is always a
  string) follows the driver's `objectid.js`: `isValid`, the constructor,
  `toHexString`.
* `JSON.stringify` and the files below the static directory are parameters of
  the environment.
* The router's splitting of the URL into path segments is taken as given: a
  request carries its raw `url` (what the logger prints) and its `path`.
-/

namespace Server1

/-! ## Values -/

/-- The driver's `ObjectID`: its `id` field, twelve bytes (or the twelve code units
of a 12-character string handed to the constructor). -/
structure ObjectId where
  id : List Nat
deriving DecidableEq

/-- JavaScript values as they occur in request bodies and documents.  An object is
an association list in which the first binding of a key is the key's value.
Numbers are integers: the code only tests a number for being zero. -/
inductive JSVal where
  | undefined
  | null
  | bool (b : Bool)
  | num (n : Int)
  | str (s : String)
  | oid (o : ObjectId)
  | arr (items : List JSVal)
  | obj (fields : List (String × JSVal))

/-- A thrown or reported JavaScript error; only its `message` is ever read. -/
structure JSError where
  message : String
deriving DecidableEq

/-- Truthiness, as tested by `!x`. -/
def truthy : JSVal → Bool
  | .undefined => false
  | .null => false
  | .bool b => b
  | .num n => n != 0
  | .str s => s != ""
  | .oid _ => true
  | .arr _ => true
  | .obj _ => true

/-- The test `Array.isArray(x)`. -/
def isArray : JSVal → Bool
  | .arr _ => true
  | _ => false

/-- The value of `x.length` for an array `x` (only evaluated on arrays). -/
def arrayLength : JSVal → Nat
  | .arr items => items.length
  | _ => 0

/-- The value of `x.key` where `x` is neither `undefined` nor `null`, for the keys
the code reads (`customerName`, `cart`): the bound value on an object, and
`undefined` where the key is not a property. -/
def field (x : JSVal) (key : String) : JSVal :=
  match x with
  | .obj fields => (fields.lookup key).getD .undefined
  | _ => .undefined

/-- Property read `x.key`: a `TypeError` on `undefined` and `null`. -/
def getProp (x : JSVal) (key : String) : Except JSError JSVal :=
  match x with
  | .undefined => .error ⟨"Cannot read property '" ++ key ++ "' of undefined"⟩
  | .null => .error ⟨"Cannot read property '" ++ key ++ "' of null"⟩
  | _ => .ok (field x key)

/-! ## The driver's ObjectID

`ObjectID` comes from the `mongodb` driver (`require('mongodb').ObjectID`), whose
`objectid.js` defines, for a string `id`,
`isValid(id) = id.length === 12 || (id.length === 24 && checkForHexRegExp.test(id))`
with `checkForHexRegExp = /^[0-9a-fA-F]{24}$/`; the constructor throws when
`isValid` fails, decodes 24 hexadecimal characters into twelve bytes, and keeps a
12-character string as it is; `toHexString` writes each byte as two lower-case
digits. -/

/-- UTF-16 code units of a character: JavaScript strings are sequences of these. -/
def utf16 (c : Char) : List Nat :=
  if c.toNat < 65536 then [c.toNat]
  else [55296 + (c.toNat - 65536) / 1024, 56320 + (c.toNat - 65536) % 1024]

/-- The code units of a string; `id.length` is the length of this list and
`id.charCodeAt(i)` its `i`-th entry. -/
def codeUnits (s : String) : List Nat :=
  s.data.flatMap utf16

/-- The character class `[0-9a-fA-F]`, on a code unit. -/
def isHexUnit (u : Nat) : Bool :=
  (48 ≤ u && u ≤ 57) || (97 ≤ u && u ≤ 102) || (65 ≤ u && u ≤ 70)

/-- The driver's `checkForHexRegExp.test(id)`, the pattern `^[0-9a-fA-F]{24}$`. -/
def checkForHexRegExp (id : String) : Bool :=
  (codeUnits id).length == 24 && (codeUnits id).all isHexUnit

/-- The driver's `ObjectID.isValid(id)` on a string:
`id.length === 12 || (id.length === 24 && checkForHexRegExp.test(id))`. -/
def isValid (id : String) : Bool :=
  (codeUnits id).length == 12 || ((codeUnits id).length == 24 && checkForHexRegExp id)

/-- Value of a hexadecimal digit given by its code unit. -/
def hexValue (u : Nat) : Nat :=
  if 48 ≤ u ∧ u ≤ 57 then u - 48
  else if 97 ≤ u ∧ u ≤ 102 then u - 87
  else if 65 ≤ u ∧ u ≤ 70 then u - 55
  else 0

/-- Decoding of a hexadecimal string into bytes, two digits per byte. -/
def fromHex : List Nat → List Nat
  | hi :: lo :: rest => (hexValue hi * 16 + hexValue lo) :: fromHex rest
  | _ => []

/-- The driver's `new ObjectID(id)` on a string: a `TypeError` when `isValid`
fails, the decoded bytes for 24 hexadecimal digits, and otherwise the string
itself (twelve characters) as the `id`. -/
def newObjectID (id : String) : Except JSError ObjectId :=
  if !isValid id then
    .error ⟨"Argument passed in must be a single String of 12 bytes or a string of 24 hex characters"⟩
  else if (codeUnits id).length == 24 then .ok ⟨fromHex (codeUnits id)⟩
  else .ok ⟨codeUnits id⟩

/-- Lower-case hexadecimal digit of a value below sixteen. -/
def hexChar (n : Nat) : Char :=
  match n with
  | 0 => '0' | 1 => '1' | 2 => '2' | 3 => '3'
  | 4 => '4' | 5 => '5' | 6 => '6' | 7 => '7'
  | 8 => '8' | 9 => '9' | 10 => 'a' | 11 => 'b'
  | 12 => 'c' | 13 => 'd' | 14 => 'e' | _ => 'f'

/-- The two digits the driver's `hexTable` holds for a byte. -/
def hexTable (b : Nat) : List Char :=
  [hexChar (b / 16), hexChar (b % 16)]

/-- The driver's `toHexString()`, for an identifier whose `id` holds bytes. -/
def toHexString (o : ObjectId) : String :=
  ⟨o.id.flatMap hexTable⟩

/-- An identifier as the store generates it: twelve bytes. -/
def ObjectId.wellFormed (o : ObjectId) : Prop :=
  o.id.length = 12 ∧ ∀ b ∈ o.id, b < 256

/-! ## Requests, responses, the store -/

/-- What `express.json()` finds in a request: no JSON body, a JSON object, a JSON
array, or a body the parser refuses (malformed text, or in strict mode a
top-level value that is neither object nor array) with the error it raises. -/
inductive RawBody where
  | absent
  | object (fields : List (String × JSVal))
  | array (items : List JSVal)
  | rejected (err : JSError)

/-- An inbound request: method (upper case), raw URL, the segments of its path,
and its body. -/
structure Request where
  method : String
  url : String
  path : List String
  body : RawBody

/-- Body of a response: text from `res.send(string)`, a value from
`res.send(object)`, a static file, an empty body, or the framework's own page
for a request no route took. -/
inductive Body where
  | text (s : String)
  | json (v : JSVal)
  | file (content : String)
  | empty
  | default

/-- A response: status code and body. -/
structure Response where
  status : Nat
  body : Body

/-- A call on a collection of the store, as a spy on the driver would record it. -/
inductive DbCall where
  | find (collection : String) (filter : JSVal)
  | insert (collection : String) (doc : JSVal)
  | findOne (collection : String) (filter : JSVal)
  | updateOne (collection : String) (filter update : JSVal)
  | deleteOne (collection : String) (filter : JSVal)
  | insertOne (collection : String) (doc : JSVal)

/-- The document store behind `db`, over states `σ`.  Each operation takes the
collection name and its arguments and gives what the callback receives
(`.error err`, or `.ok` with `results`, `results.ops`, `result`,
`result.matchedCount`, `result.deletedCount`, `result.insertedId`) and the next
state. -/
structure Store (σ : Type) where
  find : String → JSVal → σ → Except JSError (List JSVal) × σ
  insert : String → JSVal → σ → Except JSError (List JSVal) × σ
  findOne : String → JSVal → σ → Except JSError JSVal × σ
  updateOne : String → JSVal → JSVal → σ → Except JSError Nat × σ
  deleteOne : String → JSVal → σ → Except JSError Nat × σ
  insertOne : String → JSVal → σ → Except JSError JSVal × σ

/-- What surrounds the application: the handle `db` (`none` while undefined), the
static handler's answer for a path below `/static` (`none` where it falls
through), and `JSON.stringify`. -/
structure Env (σ : Type) where
  db : Option (Store σ)
  static : List String → Option Response
  stringify : JSVal → String

/-- How a handler ends: it sent a response, or it passed an error on (`next(err)`,
or a synchronous throw, which the router turns into `next(err)`). -/
inductive Step where
  | send (res : Response)
  | next (err : JSError)

/-- A handler's run: how it ended, the messages it logged, the store calls it
made, the store's state afterwards. -/
structure Handled (σ : Type) where
  step : Step
  log : List String
  calls : List DbCall
  state : σ

/-- A request's run through the whole application. -/
structure Outcome (σ : Type) where
  res : Response
  log : List String
  calls : List DbCall
  state : σ

/-! ## Middleware and routes -/

/-- The body `express.json()` leaves in `req.body`, or the error it passes on. -/
def jsonParser : RawBody → Except JSError JSVal
  | .absent => .ok (.obj [])
  | .object fields => .ok (.obj fields)
  | .array items => .ok (.arr items)
  | .rejected err => .error err

/-- The handler `express.static` mounted at `/static`: for GET and HEAD below the
mount it answers with the file if there is one; otherwise it falls through. -/
def serveStatic {σ : Type} (env : Env σ) (req : Request) : Option Response :=
  match req.path with
  | "static" :: rest =>
    if req.method = "GET" ∨ req.method = "HEAD" then env.static rest else none
  | _ => none

/-- The route `app.get('/')`. -/
def homepage {σ : Type} (st : σ) : Handled σ :=
  ⟨.send ⟨200, .text "Select a collection, e.g., /collection/messages"⟩,
    ["Homepage accessed"], [], st⟩

/-- The callback of `app.param('collectionName')` followed by the route `k`: the
read `db.collection` throws while `db` is undefined. -/
def withCollection {σ : Type} (env : Env σ) (collectionName : String) (st : σ)
    (k : Store σ → Handled σ) : Handled σ :=
  match env.db with
  | none => ⟨.next ⟨"Cannot read property 'collection' of undefined"⟩, [], [], st⟩
  | some db =>
    let h := k db
    { h with log := ("Accessing collection: " ++ collectionName) :: h.log }

/-- The route `app.get('/collection/:collectionName')`. -/
def getCollection {σ : Type} (collectionName : String) (st : σ) (db : Store σ) :
    Handled σ :=
  match db.find collectionName (.obj []) st with
  | (.error err, st1) =>
    ⟨.next err, ["Error fetching from collection: " ++ collectionName],
      [.find collectionName (.obj [])], st1⟩
  | (.ok results, st1) =>
    ⟨.send ⟨200, .json (.arr results)⟩, ["Fetched from collection: " ++ collectionName],
      [.find collectionName (.obj [])], st1⟩

/-- The route `app.post('/collection/:collectionName')`. -/
def postCollection {σ : Type} (env : Env σ) (collectionName : String) (body : JSVal)
    (st : σ) (db : Store σ) : Handled σ :=
  match db.insert collectionName body st with
  | (.error err, st1) =>
    ⟨.next err, ["Error inserting into collection: " ++ collectionName],
      [.insert collectionName body], st1⟩
  | (.ok ops, st1) =>
    ⟨.send ⟨200, .json (.arr ops)⟩,
      ["Inserted into collection: " ++ collectionName ++ " - Data: " ++ env.stringify body],
      [.insert collectionName body], st1⟩

/-- The response and log line of the two `Invalid ObjectId format` exits. -/
def invalidId {σ : Type} (line : String) (st : σ) : Handled σ :=
  ⟨.send ⟨400, .json (.obj [("msg", .str "Invalid ObjectId format")])⟩, [line], [], st⟩

/-- The route `app.put('/collection/:collectionName/:id')`. -/
def putDocument {σ : Type} (collectionName id : String) (body : JSVal) (st : σ)
    (db : Store σ) : Handled σ :=
  if !isValid id then invalidId ("Invalid ObjectId format: " ++ id) st
  else
    match newObjectID id with
    | .error _ => invalidId ("Error converting ObjectId: " ++ id) st
    | .ok objectId =>
      let filter := JSVal.obj [("_id", .oid objectId)]
      let update := JSVal.obj [("$set", body)]
      match db.updateOne collectionName filter update st with
      | (.error err, st1) =>
        ⟨.next err, ["Error updating document in collection: " ++ collectionName],
          [.updateOne collectionName filter update], st1⟩
      | (.ok matchedCount, st1) =>
        ⟨.send ⟨200, .json (.obj [("msg", .str (if matchedCount = 1 then "success" else "error"))])⟩,
          ["Updated document in collection: " ++ collectionName ++ " - ID: " ++ id],
          [.updateOne collectionName filter update], st1⟩

/-- The route `app.delete('/collection/:collectionName/:id')`. -/
def deleteDocument {σ : Type} (collectionName id : String) (st : σ) (db : Store σ) :
    Handled σ :=
  if !isValid id then invalidId ("Invalid ObjectId format: " ++ id) st
  else
    match newObjectID id with
    | .error _ => invalidId ("Error converting ObjectId: " ++ id) st
    | .ok objectId =>
      let filter := JSVal.obj [("_id", .oid objectId)]
      match db.deleteOne collectionName filter st with
      | (.error err, st1) =>
        ⟨.next err, ["Error deleting from collection: " ++ collectionName],
          [.deleteOne collectionName filter], st1⟩
      | (.ok deletedCount, st1) =>
        ⟨.send ⟨200, .json (.obj [("msg", .str (if deletedCount = 1 then "success" else "error"))])⟩,
          ["Deleted from collection: " ++ collectionName ++ " - ID: " ++ id],
          [.deleteOne collectionName filter], st1⟩

/-- The route `app.get('/collection/:collectionName/:id')`. -/
def getDocument {σ : Type} (collectionName id : String) (st : σ) (db : Store σ) :
    Handled σ :=
  if !isValid id then invalidId ("Invalid ObjectId format: " ++ id) st
  else
    match newObjectID id with
    | .error _ => invalidId ("Error converting ObjectId: " ++ id) st
    | .ok objectId =>
      let filter := JSVal.obj [("_id", .oid objectId)]
      match db.findOne collectionName filter st with
      | (.error err, st1) =>
        ⟨.next err,
          ["Error fetching document from collection: " ++ collectionName ++ " - ID: " ++ id],
          [.findOne collectionName filter], st1⟩
      | (.ok result, st1) =>
        if !truthy result then
          ⟨.send ⟨404, .json (.obj [("msg", .str "Document not found")])⟩,
            ["Document not found in collection: " ++ collectionName ++ " - ID: " ++ id],
            [.findOne collectionName filter], st1⟩
        else
          ⟨.send ⟨200, .json result⟩,
            ["Fetched document from collection: " ++ collectionName ++ " - ID: " ++ id],
            [.findOne collectionName filter], st1⟩

/-- The test of `/place-order`:
`!order.customerName || !order.cart || !Array.isArray(order.cart) || order.cart.length === 0`. -/
def orderInvalid (order : JSVal) : Except JSError Bool := do
  let customerName ← getProp order "customerName"
  let cart ← getProp order "cart"
  pure (!truthy customerName || !truthy cart || !isArray cart || arrayLength cart == 0)

/-- The route `app.post('/place-order')`. -/
def placeOrder {σ : Type} (env : Env σ) (order : JSVal) (st : σ) : Handled σ :=
  match orderInvalid order with
  | .error err => ⟨.next err, [], [], st⟩
  | .ok true =>
    ⟨.send ⟨400, .json (.obj [("msg", .str "Invalid order data")])⟩,
      ["Invalid order data received"], [], st⟩
  | .ok false =>
    match env.db with
    | none => ⟨.next ⟨"Cannot read property 'collection' of undefined"⟩, [], [], st⟩
    | some db =>
      match db.insertOne "orders" order st with
      | (.error err, st1) =>
        ⟨.next err, ["Error inserting order: " ++ err.message], [.insertOne "orders" order], st1⟩
      | (.ok insertedId, st1) =>
        ⟨.send ⟨200, .json (.obj [("msg", .str "Order placed successfully"), ("orderId", insertedId)])⟩,
          ["Order placed successfully - Data: " ++ env.stringify order],
          [.insertOne "orders" order], st1⟩

/-- The routes, by path and method; a HEAD request is served by the GET route.
`none` when no route takes the request. -/
def routes {σ : Type} (env : Env σ) (req : Request) (body : JSVal) (st : σ) :
    Option (Handled σ) :=
  let method := if req.method = "HEAD" then "GET" else req.method
  match req.path with
  | [] => if method = "GET" then some (homepage st) else none
  | ["collection", collectionName] =>
    if method = "GET" then
      some (withCollection env collectionName st (getCollection collectionName st))
    else if method = "POST" then
      some (withCollection env collectionName st (postCollection env collectionName body st))
    else none
  | ["collection", collectionName, id] =>
    if method = "PUT" then
      some (withCollection env collectionName st (putDocument collectionName id body st))
    else if method = "DELETE" then
      some (withCollection env collectionName st (deleteDocument collectionName id st))
    else if method = "GET" then
      some (withCollection env collectionName st (getDocument collectionName id st))
    else none
  | ["place-order"] => if method = "POST" then some (placeOrder env body st) else none
  | _ => none

/-- The error handler registered last: it logs the message and answers 500. -/
def errorHandler {σ : Type} (err : JSError) (log : List String) (calls : List DbCall)
    (st : σ) : Outcome σ :=
  ⟨⟨500, .text "Something went wrong!"⟩, log ++ ["Error: " ++ err.message], calls, st⟩

/-- The application: `express.json()`, `cors()` (which answers every OPTIONS
request itself), the static handler, the request logger, the routes, and the
error handler for whatever was passed on with an error. -/
def app {σ : Type} (env : Env σ) (req : Request) (st : σ) : Outcome σ :=
  match jsonParser req.body with
  | .error err => errorHandler err [] [] st
  | .ok body =>
    if req.method = "OPTIONS" then ⟨⟨204, .empty⟩, [], [], st⟩
    else
      match serveStatic env req with
      | some res => ⟨res, [], [], st⟩
      | none =>
        let line := "Request: " ++ req.method ++ " " ++ req.url
        match routes env req body st with
        | none => ⟨⟨404, .default⟩, [line], [], st⟩
        | some h =>
          match h.step with
          | .send res => ⟨res, line :: h.log, h.calls, h.state⟩
          | .next err => errorHandler err (line :: h.log) h.calls h.state

/-! ## A store double -/

/-- The replies a scripted store gives, one per operation. -/
structure Replies where
  find : Except JSError (List JSVal)
  insert : Except JSError (List JSVal)
  findOne : Except JSError JSVal
  updateOne : Except JSError Nat
  deleteOne : Except JSError Nat
  insertOne : Except JSError JSVal

/-- A store double that answers every call with its scripted reply and counts the
calls it received in its state. -/
def scripted (r : Replies) : Store Nat where
  find := fun _ _ n => (r.find, n + 1)
  insert := fun _ _ n => (r.insert, n + 1)
  findOne := fun _ _ n => (r.findOne, n + 1)
  updateOne := fun _ _ _ n => (r.updateOne, n + 1)
  deleteOne := fun _ _ n => (r.deleteOne, n + 1)
  insertOne := fun _ _ n => (r.insertOne, n + 1)

/-- Replies of a store that holds no document: nothing found, matched or deleted,
and an insert that returns what it was given under a fixed identifier. -/
def emptyReplies : Replies where
  find := .ok []
  insert := .ok []
  findOne := .ok .null
  updateOne := .ok 0
  deleteOne := .ok 0
  insertOne := .ok (.oid ⟨[1, 2, 3, 4, 5, 6, 7, 8, 9, 10, 11, 12]⟩)

/-- An environment around a scripted store, with no static files. -/
def testEnv (r : Replies) : Env Nat where
  db := some (scripted r)
  static := fun _ => none
  stringify := fun _ => "<json>"

/-- An environment around a scripted store whose static directory holds the one
file `logo.png`. -/
def staticEnv (r : Replies) : Env Nat where
  db := some (scripted r)
  static := fun rest => if rest = ["logo.png"] then some ⟨200, .file "<png>"⟩ else none
  stringify := fun _ => "<json>"

/-- An environment in which `db` is still undefined. -/
def unconnectedEnv : Env Nat where
  db := none
  static := fun _ => none
  stringify := fun _ => "<json>"

/-! ## An in-memory document store -/

/-- Modelled from the spec: the state of the document store (the external database
behind `db`): the documents it holds, each with the name of its collection, in
insertion order, and the count of identifiers it has generated. -/
structure MemState where
  docs : List (String × JSVal)
  counter : Nat

/-- Modelled from the spec: the identifier the store generates from its counter,
twelve bytes, most significant first. -/
def freshId (n : Nat) : ObjectId :=
  ⟨(List.range 12).map (fun i => n / 256 ^ (11 - i) % 256)⟩

/-- The assignment `doc[key] = v` on the fields of an object: an existing binding
is replaced in place, a new key is added at the end. -/
def setField (fields : List (String × JSVal)) (key : String) (v : JSVal) :
    List (String × JSVal) :=
  match fields with
  | [] => [(key, v)]
  | (k, w) :: rest => if k = key then (k, v) :: rest else (k, w) :: setField rest key v

/-- Whether a document's `_id` is the identifier `o`. -/
def hasId (o : ObjectId) (doc : JSVal) : Bool :=
  match field doc "_id" with
  | .oid p => decide (p = o)
  | _ => false

/-- The identifier a filter `{_id: o}` asks for. -/
def filterId : JSVal → Option ObjectId
  | .obj [("_id", .oid o)] => some o
  | _ => none

/-- The first document of a collection with the identifier `o`, or `null`. -/
def lookupId (collection : String) (o : ObjectId) : List (String × JSVal) → JSVal
  | [] => .null
  | (c, doc) :: rest =>
    if c = collection ∧ hasId o doc = true then doc else lookupId collection o rest

/-- The documents without the first one of the collection that has the identifier. -/
def removeId (collection : String) (o : ObjectId) :
    List (String × JSVal) → List (String × JSVal)
  | [] => []
  | (c, doc) :: rest =>
    if c = collection ∧ hasId o doc = true then rest
    else (c, doc) :: removeId collection o rest

/-- The documents with `change` applied to the first one of the collection that
has the identifier. -/
def changeId (collection : String) (o : ObjectId) (change : JSVal → JSVal) :
    List (String × JSVal) → List (String × JSVal)
  | [] => []
  | (c, doc) :: rest =>
    if c = collection ∧ hasId o doc = true then (c, change doc) :: rest
    else (c, doc) :: changeId collection o change rest

/-- The merge of `{$set: changes}` into a document: each field of `changes` is
assigned, in order. -/
def applySet (update : JSVal) (doc : JSVal) : JSVal :=
  match doc with
  | .obj fields =>
    match field update "$set" with
    | .obj changes => .obj (changes.foldl (fun acc kv => setField acc kv.1 kv.2) fields)
    | _ => doc
  | _ => doc

/-- Modelled from the spec: storing one document.  The store assigns a fresh
identifier: the document stored is the given one with `_id` set to the
identifier generated from the counter, which then advances. -/
def addDoc (collection : String) (fields : List (String × JSVal)) (st : MemState) :
    JSVal × MemState :=
  (.obj (setField fields "_id" (.oid (freshId st.counter))),
    ⟨st.docs ++ [(collection, .obj (setField fields "_id" (.oid (freshId st.counter))))],
      st.counter + 1⟩)

/-- Storing the documents of an array, in order; `none` when an entry is not a
document. -/
def addDocs (collection : String) : List JSVal → MemState → Option (List JSVal × MemState)
  | [], st => some ([], st)
  | .obj fields :: rest, st =>
    match addDocs collection rest (addDoc collection fields st).2 with
    | some (docs, st2) => some ((addDoc collection fields st).1 :: docs, st2)
    | none => none
  | _ :: _, _ => none

/-- Modelled from the spec: the document store (the external database) as an
in-memory store.  `find` with the filter `{}` gives the documents of the
collection; `insert` and `insertOne` store documents under fresh identifiers;
`findOne`, `updateOne` and `deleteOne` with the filter `{_id: o}` act on the
first document of the collection with that identifier.  Other filters, which
the application never issues, are refused. -/
def memStore : Store MemState where
  find := fun collection filter st =>
    match filter with
    | .obj [] => (.ok ((st.docs.filter (fun cd => cd.1 = collection)).map Prod.snd), st)
    | _ => (.error ⟨"unsupported filter"⟩, st)
  insert := fun collection doc st =>
    match doc with
    | .obj fields => (.ok [(addDoc collection fields st).1], (addDoc collection fields st).2)
    | .arr items =>
      match addDocs collection items st with
      | some (docs, st1) => (.ok docs, st1)
      | none => (.error ⟨"document must be an object"⟩, st)
    | _ => (.error ⟨"document must be an object"⟩, st)
  findOne := fun collection filter st =>
    match filterId filter with
    | some o => (.ok (lookupId collection o st.docs), st)
    | none => (.error ⟨"unsupported filter"⟩, st)
  updateOne := fun collection filter update st =>
    match filterId filter with
    | some o =>
      (.ok (if truthy (lookupId collection o st.docs) then 1 else 0),
        ⟨changeId collection o (applySet update) st.docs, st.counter⟩)
    | none => (.error ⟨"unsupported filter"⟩, st)
  deleteOne := fun collection filter st =>
    match filterId filter with
    | some o =>
      (.ok (if truthy (lookupId collection o st.docs) then 1 else 0),
        ⟨removeId collection o st.docs, st.counter⟩)
    | none => (.error ⟨"unsupported filter"⟩, st)
  insertOne := fun collection doc st =>
    match doc with
    | .obj fields => (.ok (.oid (freshId st.counter)), (addDoc collection fields st).2)
    | _ => (.error ⟨"document must be an object"⟩, st)

/-- An environment around the in-memory store, with no static files. -/
def memEnv : Env MemState where
  db := some memStore
  static := fun _ => none
  stringify := fun _ => "<json>"

/-! ## Facts about the driver's ObjectID -/

/-- The strings `ObjectID.isValid` refuses: neither 12 code units long nor 24
hexadecimal characters. -/
theorem isValid_eq_false_iff (id : String) :
    isValid id = false ↔ (codeUnits id).length ≠ 12 ∧ checkForHexRegExp id = false := by
  unfold isValid checkForHexRegExp
  by_cases h12 : (codeUnits id).length = 12
  · simp [h12]
  · by_cases h24 : (codeUnits id).length = 24 <;> simp [h12, h24]

/-- A string of 24 hexadecimal characters passes `ObjectID.isValid`. -/
theorem isValid_of_hex (id : String) (h : checkForHexRegExp id = true) : isValid id = true := by
  unfold isValid
  have h24 : (codeUnits id).length = 24 := by
    unfold checkForHexRegExp at h
    simp at h
    exact h.1
  simp [h24, h]

/-- On 24 hexadecimal characters the constructor decodes the twelve bytes. -/
theorem newObjectID_of_hex (id : String) (h : checkForHexRegExp id = true) :
    newObjectID id = .ok ⟨fromHex (codeUnits id)⟩ := by
  have h24 : (codeUnits id).length = 24 := by
    unfold checkForHexRegExp at h
    simp at h
    exact h.1
  simp [newObjectID, isValid_of_hex id h, h24]

/-- Whatever the constructor accepts has passed `ObjectID.isValid`. -/
theorem isValid_of_newObjectID (id : String) (o : ObjectId) (h : newObjectID id = .ok o) :
    isValid id = true := by
  cases hv : isValid id
  · simp [newObjectID, hv] at h
  · rfl

/-- Code unit of the lower-case hexadecimal digit of a value below sixteen. -/
theorem utf16_hexChar (n : Nat) (h : n < 16) :
    utf16 (hexChar n) = [if n < 10 then 48 + n else 87 + n] := by
  interval_cases n <;> rfl

/-- The digits of `hexTable` are hexadecimal characters. -/
theorem isHexUnit_digit (n : Nat) (h : n < 16) :
    isHexUnit (if n < 10 then 48 + n else 87 + n) = true := by
  interval_cases n <;> rfl

/-- Decoding a digit of `hexTable` gives its value back. -/
theorem hexValue_digit (n : Nat) (h : n < 16) :
    hexValue (if n < 10 then 48 + n else 87 + n) = n := by
  interval_cases n <;> rfl

/-- The code units of the hexadecimal rendering of a list of bytes: two per byte,
all hexadecimal digits, decoding back to the bytes. -/
theorem hex_units_of_bytes (bs : List Nat) (h : ∀ b ∈ bs, b < 256) :
    ((bs.flatMap hexTable).flatMap utf16).length = 2 * bs.length ∧
    ((bs.flatMap hexTable).flatMap utf16).all isHexUnit = true ∧
    fromHex ((bs.flatMap hexTable).flatMap utf16) = bs := by
  induction bs with
  | nil => exact ⟨rfl, rfl, rfl⟩
  | cons b bs ih =>
    have hb : b < 256 := h b (List.mem_cons_self b bs)
    have hhi : b / 16 < 16 := by omega
    have hlo : b % 16 < 16 := by omega
    obtain ⟨ih1, ih2, ih3⟩ := ih (fun c hc => h c (List.mem_cons_of_mem b hc))
    have hstep : ((b :: bs).flatMap hexTable).flatMap utf16
        = (if b / 16 < 10 then 48 + b / 16 else 87 + b / 16) ::
          (if b % 16 < 10 then 48 + b % 16 else 87 + b % 16) ::
          (bs.flatMap hexTable).flatMap utf16 := by
      simp [List.flatMap_cons, hexTable, utf16_hexChar _ hhi, utf16_hexChar _ hlo]
    rw [hstep]
    refine ⟨?_, ?_, ?_⟩
    · simp [ih1]
      omega
    · simp only [List.all_cons, isHexUnit_digit _ hhi, isHexUnit_digit _ hlo, ih2, Bool.and_self]
    · simp only [fromHex, hexValue_digit _ hhi, hexValue_digit _ hlo, ih3]
      congr 1
      omega

/-- The driver's round trip: the hexadecimal rendering of a well-formed identifier
is 24 hexadecimal characters and parses back to the identifier. -/
theorem hex_round_trip (o : ObjectId) (h : o.wellFormed) :
    checkForHexRegExp (toHexString o) = true ∧ newObjectID (toHexString o) = .ok o := by
  obtain ⟨h1, h2, h3⟩ := hex_units_of_bytes o.id h.2
  have hlen : (codeUnits (toHexString o)).length = 24 := by
    show ((o.id.flatMap hexTable).flatMap utf16).length = 24
    rw [h1, h.1]
  have hall : (codeUnits (toHexString o)).all isHexUnit = true := h2
  have hchk : checkForHexRegExp (toHexString o) = true := by
    unfold checkForHexRegExp
    rw [hall, hlen]
    rfl
  refine ⟨hchk, ?_⟩
  rw [newObjectID_of_hex _ hchk]
  show Except.ok (ObjectId.mk (fromHex ((o.id.flatMap hexTable).flatMap utf16))) = Except.ok o
  rw [h3]

/-! ## Identifier validation (C1) -/

/-- C1, as stated, fails: the 12-character id `abcdefghijkl` is not 24 hexadecimal
characters, yet `ObjectID.isValid` accepts it; PUT with body `{a: 1}` is not
answered 400 and `updateOne` is called once, with the twelve characters as the
identifier. -/
theorem twelve_character_id_reaches_store :
    checkForHexRegExp "abcdefghijkl" = false ∧
    (app (testEnv emptyReplies)
      ⟨"PUT", "/collection/widgets/abcdefghijkl", ["collection", "widgets", "abcdefghijkl"],
        .object [("a", .num 1)]⟩ 0).res.status = 200 ∧
    (app (testEnv emptyReplies)
      ⟨"PUT", "/collection/widgets/abcdefghijkl", ["collection", "widgets", "abcdefghijkl"],
        .object [("a", .num 1)]⟩ 0).calls
      = [.updateOne "widgets"
          (.obj [("_id", .oid ⟨[97, 98, 99, 100, 101, 102, 103, 104, 105, 106, 107, 108]⟩)])
          (.obj [("$set", .obj [("a", .num 1)])])] ∧
    (app (testEnv emptyReplies)
      ⟨"PUT", "/collection/widgets/abcdefghijkl", ["collection", "widgets", "abcdefghijkl"],
        .object [("a", .num 1)]⟩ 0).state = 1 := by
  refine ⟨by decide, by decide, rfl, by decide⟩

/-- C1, amended: for every id that `ObjectID.isValid` refuses, that is every string
that is neither 12 characters long nor 24 hexadecimal characters, GET, PUT and
DELETE on `/collection/:collectionName/:id` (with `db` established) answer 400
with `{msg: 'Invalid ObjectId format'}`, call nothing on the store and leave its
state as it was. -/
theorem invalid_id_rejected {σ : Type} (env : Env σ) (db : Store σ) (hdb : env.db = some db)
    (method url collectionName id : String) (body : RawBody) (b : JSVal) (st : σ)
    (hm : method = "GET" ∨ method = "PUT" ∨ method = "DELETE")
    (hb : jsonParser body = .ok b)
    (h12 : (codeUnits id).length ≠ 12) (hhex : checkForHexRegExp id = false) :
    (app env ⟨method, url, ["collection", collectionName, id], body⟩ st).res
      = ⟨400, .json (.obj [("msg", .str "Invalid ObjectId format")])⟩ ∧
    (app env ⟨method, url, ["collection", collectionName, id], body⟩ st).calls = [] ∧
    (app env ⟨method, url, ["collection", collectionName, id], body⟩ st).state = st ∧
    (app env ⟨method, url, ["collection", collectionName, id], body⟩ st).log
      = ["Request: " ++ method ++ " " ++ url, "Accessing collection: " ++ collectionName,
          "Invalid ObjectId format: " ++ id] := by
  have hv : isValid id = false := (isValid_eq_false_iff id).2 ⟨h12, hhex⟩
  rcases hm with h | h | h <;> subst h <;>
    simp [app, hb, serveStatic, routes, withCollection, hdb, putDocument, deleteDocument,
      getDocument, hv, invalidId]

/-- C1 (amended) on a concrete request: DELETE with the id `42`. -/
theorem invalid_id_rejected_witness :
    (codeUnits "42").length ≠ 12 ∧ checkForHexRegExp "42" = false ∧
    (app (testEnv emptyReplies) ⟨"DELETE", "/collection/widgets/42", ["collection", "widgets", "42"],
        .absent⟩ 0).res = ⟨400, .json (.obj [("msg", .str "Invalid ObjectId format")])⟩ ∧
    (app (testEnv emptyReplies) ⟨"DELETE", "/collection/widgets/42", ["collection", "widgets", "42"],
        .absent⟩ 0).calls = [] :=
  ⟨by decide, by decide,
    (invalid_id_rejected (testEnv emptyReplies) (scripted emptyReplies) rfl "DELETE"
      "/collection/widgets/42" "widgets" "42" .absent (.obj []) 0 (by decide) rfl
      (by decide) (by decide)).1,
    (invalid_id_rejected (testEnv emptyReplies) (scripted emptyReplies) rfl "DELETE"
      "/collection/widgets/42" "widgets" "42" .absent (.obj []) 0 (by decide) rfl
      (by decide) (by decide)).2.1⟩

/-! ## Placing an order (C2, C3) -/

/-- What `express.json()` leaves in `req.body` is an object or an array. -/
theorem jsonParser_ok_shape (body : RawBody) (order : JSVal) (hb : jsonParser body = .ok order) :
    (∃ fields, order = .obj fields) ∨ (∃ items, order = .arr items) := by
  cases body <;> simp [jsonParser] at hb
  · exact Or.inl ⟨[], hb.symm⟩
  · exact Or.inl ⟨_, hb.symm⟩
  · exact Or.inr ⟨_, hb.symm⟩

/-- On a parsed body the test of `/place-order` throws nothing and is the
disjunction of its four conditions. -/
theorem orderInvalid_parsed (body : RawBody) (order : JSVal) (hb : jsonParser body = .ok order) :
    orderInvalid order = .ok (!truthy (field order "customerName") ||
      !truthy (field order "cart") || !isArray (field order "cart") ||
      arrayLength (field order "cart") == 0) := by
  rcases jsonParser_ok_shape body order hb with ⟨fields, rfl⟩ | ⟨items, rfl⟩ <;> rfl

/-- The four conditions of the order test, read off the two values it inspects. -/
theorem rejected_iff (name cart : JSVal) :
    (!truthy name || !truthy cart || !isArray cart || arrayLength cart == 0) = true ↔
      (truthy name = false ∨ ¬ ∃ x xs, cart = .arr (x :: xs)) := by
  cases cart with
  | arr items =>
    cases items with
    | nil => simp [truthy, isArray, arrayLength]
    | cons x xs => simp [truthy, isArray, arrayLength]
  | _ => simp [isArray]

/-- C2, as stated, fails: in `{customerName: false, cart: [{sku: 'x'}]}` the
customer name is present and is not the empty string and the cart is a non-empty
array, yet the order is refused with 400 and nothing is inserted. -/
theorem false_customer_name_refused :
    field (.obj [("customerName", .bool false), ("cart", .arr [.obj [("sku", .str "x")]])])
      "customerName" = .bool false ∧
    field (.obj [("customerName", .bool false), ("cart", .arr [.obj [("sku", .str "x")]])])
      "cart" = .arr [.obj [("sku", .str "x")]] ∧
    (app (testEnv emptyReplies) ⟨"POST", "/place-order", ["place-order"],
      .object [("customerName", .bool false), ("cart", .arr [.obj [("sku", .str "x")]])]⟩ 0).res
      = ⟨400, .json (.obj [("msg", .str "Invalid order data")])⟩ ∧
    (app (testEnv emptyReplies) ⟨"POST", "/place-order", ["place-order"],
      .object [("customerName", .bool false), ("cart", .arr [.obj [("sku", .str "x")]])]⟩ 0).calls
      = [] := by
  refine ⟨rfl, rfl, rfl, rfl⟩

/-- C2, amended: for every parsed request body `order`, POST `/place-order` answers
400 with `{msg: 'Invalid order data'}` and inserts nothing if and only if
`customerName` is falsy (missing, `null`, `false`, `0` or the empty string) or
`cart` is not a non-empty array; nothing else in the body enters the decision. -/
theorem place_order_refuses_iff {σ : Type} (env : Env σ) (url : String) (body : RawBody)
    (order : JSVal) (st : σ) (hb : jsonParser body = .ok order) :
    ((app env ⟨"POST", url, ["place-order"], body⟩ st).res
        = ⟨400, .json (.obj [("msg", .str "Invalid order data")])⟩ ∧
      (app env ⟨"POST", url, ["place-order"], body⟩ st).calls = []) ↔
    (truthy (field order "customerName") = false ∨
      ¬ ∃ x xs, field order "cart" = .arr (x :: xs)) := by
  rw [← rejected_iff]
  have ho := orderInvalid_parsed body order hb
  cases hc : (!truthy (field order "customerName") || !truthy (field order "cart") ||
      !isArray (field order "cart") || arrayLength (field order "cart") == 0)
  · rw [hc] at ho
    cases hdb : env.db with
    | none => simp [app, hb, serveStatic, routes, placeOrder, ho, hdb, errorHandler]
    | some db =>
      rcases hins : db.insertOne "orders" order st with ⟨r, st1⟩
      cases r <;> simp [app, hb, serveStatic, routes, placeOrder, ho, hdb, hins, errorHandler]
  · rw [hc] at ho
    simp [app, hb, serveStatic, routes, placeOrder, ho]

/-- C2 (amended) on a concrete request: the order `{customerName: 'Alice', cart: []}`. -/
theorem place_order_refuses_iff_witness :
    jsonParser (.object [("customerName", .str "Alice"), ("cart", .arr [])])
      = .ok (.obj [("customerName", .str "Alice"), ("cart", .arr [])]) ∧
    (((app (testEnv emptyReplies) ⟨"POST", "/place-order", ["place-order"],
        .object [("customerName", .str "Alice"), ("cart", .arr [])]⟩ 0).res
        = ⟨400, .json (.obj [("msg", .str "Invalid order data")])⟩ ∧
      (app (testEnv emptyReplies) ⟨"POST", "/place-order", ["place-order"],
        .object [("customerName", .str "Alice"), ("cart", .arr [])]⟩ 0).calls = []) ↔
    (truthy (field (.obj [("customerName", .str "Alice"), ("cart", .arr [])]) "customerName")
        = false ∨
      ¬ ∃ x xs, field (.obj [("customerName", .str "Alice"), ("cart", .arr [])]) "cart"
        = .arr (x :: xs))) :=
  ⟨rfl, place_order_refuses_iff (testEnv emptyReplies) "/place-order"
    (.object [("customerName", .str "Alice"), ("cart", .arr [])])
    (.obj [("customerName", .str "Alice"), ("cart", .arr [])]) 0 rfl⟩

/-- C3: for every parsed order with a truthy `customerName` and a non-empty array
`cart`, with `db` established and `insertOne` succeeding, POST `/place-order`
makes exactly one store call, `insertOne` on `orders` with the body as the
document, and answers 200 with
`{msg: 'Order placed successfully', orderId: insertedId}`. -/
theorem place_order_inserts {σ : Type} (env : Env σ) (db : Store σ) (hdb : env.db = some db)
    (url : String) (body : RawBody) (order insertedId : JSVal) (st st1 : σ)
    (hb : jsonParser body = .ok order)
    (hname : truthy (field order "customerName") = true)
    (hcart : ∃ x xs, field order "cart" = .arr (x :: xs))
    (hins : db.insertOne "orders" order st = (.ok insertedId, st1)) :
    (app env ⟨"POST", url, ["place-order"], body⟩ st).res
      = ⟨200, .json (.obj [("msg", .str "Order placed successfully"),
          ("orderId", insertedId)])⟩ ∧
    (app env ⟨"POST", url, ["place-order"], body⟩ st).calls = [.insertOne "orders" order] ∧
    (app env ⟨"POST", url, ["place-order"], body⟩ st).state = st1 := by
  have ho := orderInvalid_parsed body order hb
  have hc : (!truthy (field order "customerName") || !truthy (field order "cart") ||
      !isArray (field order "cart") || arrayLength (field order "cart") == 0) = false := by
    rcases hcart with ⟨x, xs, hx⟩
    rw [hx, hname]
    rfl
  rw [hc] at ho
  simp [app, hb, serveStatic, routes, placeOrder, ho, hdb, hins]

/-- C3 on a concrete request: the order
`{customerName: 'Alice', cart: [{sku: 'x'}]}`. -/
theorem place_order_inserts_witness :
    (app (testEnv emptyReplies) ⟨"POST", "/place-order", ["place-order"],
      .object [("customerName", .str "Alice"), ("cart", .arr [.obj [("sku", .str "x")]])]⟩ 0).res
      = ⟨200, .json (.obj [("msg", .str "Order placed successfully"),
          ("orderId", .oid ⟨[1, 2, 3, 4, 5, 6, 7, 8, 9, 10, 11, 12]⟩)])⟩ ∧
    (app (testEnv emptyReplies) ⟨"POST", "/place-order", ["place-order"],
      .object [("customerName", .str "Alice"), ("cart", .arr [.obj [("sku", .str "x")]])]⟩ 0).calls
      = [.insertOne "orders"
          (.obj [("customerName", .str "Alice"), ("cart", .arr [.obj [("sku", .str "x")]])])] ∧
    (app (testEnv emptyReplies) ⟨"POST", "/place-order", ["place-order"],
      .object [("customerName", .str "Alice"), ("cart", .arr [.obj [("sku", .str "x")]])]⟩ 0).state
      = 1 :=
  place_order_inserts (testEnv emptyReplies) (scripted emptyReplies) rfl "/place-order"
    (.object [("customerName", .str "Alice"), ("cart", .arr [.obj [("sku", .str "x")]])])
    (.obj [("customerName", .str "Alice"), ("cart", .arr [.obj [("sku", .str "x")]])])
    (.oid ⟨[1, 2, 3, 4, 5, 6, 7, 8, 9, 10, 11, 12]⟩) 0 1 rfl rfl
    ⟨.obj [("sku", .str "x")], [], rfl⟩ rfl

/-! ## Reading, updating and deleting one document (C4, C5, C6) -/

/-- C4: for every id of 24 hexadecimal characters and every collection, with `db`
established, GET `/collection/:collectionName/:id` looks the parsed identifier up
with `findOne`; when the store reports `null` without error the answer is 404
with `{msg: 'Document not found'}` (neither 500 nor 400), and when it reports a
document the answer is 200 with exactly that document. -/
theorem get_document_found_or_404 {σ : Type} (env : Env σ) (db : Store σ)
    (hdb : env.db = some db) (url collectionName id : String) (body : RawBody) (b : JSVal)
    (st st1 : σ) (result : JSVal)
    (hb : jsonParser body = .ok b)
    (hid : checkForHexRegExp id = true)
    (hfind : db.findOne collectionName (.obj [("_id", .oid ⟨fromHex (codeUnits id)⟩)]) st
      = (.ok result, st1)) :
    (result = .null →
      (app env ⟨"GET", url, ["collection", collectionName, id], body⟩ st).res
        = ⟨404, .json (.obj [("msg", .str "Document not found")])⟩) ∧
    (∀ fields, result = .obj fields →
      (app env ⟨"GET", url, ["collection", collectionName, id], body⟩ st).res
        = ⟨200, .json (.obj fields)⟩) ∧
    (app env ⟨"GET", url, ["collection", collectionName, id], body⟩ st).calls
      = [.findOne collectionName (.obj [("_id", .oid ⟨fromHex (codeUnits id)⟩)])] := by
  have hv := isValid_of_hex id hid
  have hn := newObjectID_of_hex id hid
  refine ⟨?_, ?_, ?_⟩
  · intro hr
    subst hr
    simp [app, hb, serveStatic, routes, withCollection, hdb, getDocument, hv, hn, hfind, truthy]
  · intro fields hr
    subst hr
    simp [app, hb, serveStatic, routes, withCollection, hdb, getDocument, hv, hn, hfind, truthy]
  · cases ht : truthy result <;>
      simp [app, hb, serveStatic, routes, withCollection, hdb, getDocument, hv, hn, hfind, ht]

/-- C4 on a concrete request: a well-formed id the store does not hold. -/
theorem get_document_found_or_404_witness :
    checkForHexRegExp "0102030405060708090a0b0C" = true ∧
    (app (testEnv emptyReplies) ⟨"GET", "/collection/widgets/0102030405060708090a0b0C",
      ["collection", "widgets", "0102030405060708090a0b0C"], .absent⟩ 0).res
      = ⟨404, .json (.obj [("msg", .str "Document not found")])⟩ ∧
    (app (testEnv emptyReplies) ⟨"GET", "/collection/widgets/0102030405060708090a0b0C",
      ["collection", "widgets", "0102030405060708090a0b0C"], .absent⟩ 0).calls
      = [.findOne "widgets" (.obj [("_id", .oid ⟨[1, 2, 3, 4, 5, 6, 7, 8, 9, 10, 11, 12]⟩)])] :=
  ⟨by decide,
    (get_document_found_or_404 (testEnv emptyReplies) (scripted emptyReplies) rfl
      "/collection/widgets/0102030405060708090a0b0C" "widgets" "0102030405060708090a0b0C"
      .absent (.obj []) 0 1 .null rfl (by decide) rfl).1 rfl,
    rfl⟩

/-- C5: for every id of 24 hexadecimal characters and every parsed request body,
with `db` established, PUT `/collection/:collectionName/:id` issues one
`updateOne` with filter `{_id: <parsed id>}` and update `{$set: body}`; when it
completes without error the answer is 200, with body `{msg: 'success'}` if and
only if `matchedCount` is 1 and `{msg: 'error'}` otherwise. -/
theorem put_success_iff_one_match {σ : Type} (env : Env σ) (db : Store σ)
    (hdb : env.db = some db) (url collectionName id : String) (body : RawBody) (b : JSVal)
    (st st1 : σ) (matchedCount : Nat)
    (hb : jsonParser body = .ok b)
    (hid : checkForHexRegExp id = true)
    (hupd : db.updateOne collectionName (.obj [("_id", .oid ⟨fromHex (codeUnits id)⟩)])
      (.obj [("$set", b)]) st = (.ok matchedCount, st1)) :
    (app env ⟨"PUT", url, ["collection", collectionName, id], body⟩ st).res.status = 200 ∧
    ((app env ⟨"PUT", url, ["collection", collectionName, id], body⟩ st).res.body
      = .json (.obj [("msg", .str "success")]) ↔ matchedCount = 1) ∧
    (matchedCount ≠ 1 →
      (app env ⟨"PUT", url, ["collection", collectionName, id], body⟩ st).res.body
        = .json (.obj [("msg", .str "error")])) ∧
    (app env ⟨"PUT", url, ["collection", collectionName, id], body⟩ st).calls
      = [.updateOne collectionName (.obj [("_id", .oid ⟨fromHex (codeUnits id)⟩)])
          (.obj [("$set", b)])] := by
  have hv := isValid_of_hex id hid
  have hn := newObjectID_of_hex id hid
  by_cases h1 : matchedCount = 1 <;>
    simp [app, hb, serveStatic, routes, withCollection, hdb, putDocument, hv, hn, hupd, h1]

/-- C5 on a concrete request: an update that matches nothing. -/
theorem put_success_iff_one_match_witness :
    checkForHexRegExp "0102030405060708090a0b0C" = true ∧
    (app (testEnv emptyReplies) ⟨"PUT", "/collection/widgets/0102030405060708090a0b0C",
      ["collection", "widgets", "0102030405060708090a0b0C"],
      .object [("a", .num 2)]⟩ 0).res.body = .json (.obj [("msg", .str "error")]) :=
  ⟨by decide,
    (put_success_iff_one_match (testEnv emptyReplies) (scripted emptyReplies) rfl
      "/collection/widgets/0102030405060708090a0b0C" "widgets" "0102030405060708090a0b0C"
      (.object [("a", .num 2)]) (.obj [("a", .num 2)]) 0 1 0 rfl (by decide) rfl).2.2.1
      (by decide)⟩

/-- C6: for every id of 24 hexadecimal characters, with `db` established, DELETE
`/collection/:collectionName/:id` issues one `deleteOne` with filter
`{_id: <parsed id>}`; when it completes without error the answer is 200, with
body `{msg: 'success'}` if and only if `deletedCount` is 1 and `{msg: 'error'}`
otherwise. -/
theorem delete_success_iff_one_deleted {σ : Type} (env : Env σ) (db : Store σ)
    (hdb : env.db = some db) (url collectionName id : String) (body : RawBody) (b : JSVal)
    (st st1 : σ) (deletedCount : Nat)
    (hb : jsonParser body = .ok b)
    (hid : checkForHexRegExp id = true)
    (hdel : db.deleteOne collectionName (.obj [("_id", .oid ⟨fromHex (codeUnits id)⟩)]) st
      = (.ok deletedCount, st1)) :
    (app env ⟨"DELETE", url, ["collection", collectionName, id], body⟩ st).res.status = 200 ∧
    ((app env ⟨"DELETE", url, ["collection", collectionName, id], body⟩ st).res.body
      = .json (.obj [("msg", .str "success")]) ↔ deletedCount = 1) ∧
    (deletedCount ≠ 1 →
      (app env ⟨"DELETE", url, ["collection", collectionName, id], body⟩ st).res.body
        = .json (.obj [("msg", .str "error")])) ∧
    (app env ⟨"DELETE", url, ["collection", collectionName, id], body⟩ st).calls
      = [.deleteOne collectionName (.obj [("_id", .oid ⟨fromHex (codeUnits id)⟩)])] := by
  have hv := isValid_of_hex id hid
  have hn := newObjectID_of_hex id hid
  by_cases h1 : deletedCount = 1 <;>
    simp [app, hb, serveStatic, routes, withCollection, hdb, deleteDocument, hv, hn, hdel, h1]

/-- C6 on a concrete request: a delete that removes nothing. -/
theorem delete_success_iff_one_deleted_witness :
    checkForHexRegExp "0102030405060708090a0b0C" = true ∧
    (app (testEnv emptyReplies) ⟨"DELETE", "/collection/widgets/0102030405060708090a0b0C",
      ["collection", "widgets", "0102030405060708090a0b0C"],
      .absent⟩ 0).res.body = .json (.obj [("msg", .str "error")]) :=
  ⟨by decide,
    (delete_success_iff_one_deleted (testEnv emptyReplies) (scripted emptyReplies) rfl
      "/collection/widgets/0102030405060708090a0b0C" "widgets" "0102030405060708090a0b0C"
      .absent (.obj []) 0 1 0 rfl (by decide) rfl).2.2.1 (by decide)⟩

/-! ## Request logging (C7) -/

/-- C7 fails on the code: the request logger is registered after `express.json()`,
`cors()` and `express.static`, so a request that one of them answers or fails
never reaches it.  A GET of an existing static file is answered with no log line
at all, an OPTIONS request likewise, and a request whose JSON body is refused is
logged only as `Error: <message>`, without method and URL. -/
theorem static_file_request_not_logged :
    (app (staticEnv emptyReplies) ⟨"GET", "/static/logo.png", ["static", "logo.png"],
      .absent⟩ 0).res.status = 200 ∧
    (app (staticEnv emptyReplies) ⟨"GET", "/static/logo.png", ["static", "logo.png"],
      .absent⟩ 0).log = [] ∧
    (app (staticEnv emptyReplies) ⟨"OPTIONS", "/collection/widgets", ["collection", "widgets"],
      .absent⟩ 0).log = [] ∧
    (app (staticEnv emptyReplies) ⟨"POST", "/place-order", ["place-order"],
      .rejected ⟨"Unexpected end of JSON input"⟩⟩ 0).log
      = ["Error: Unexpected end of JSON input"] := by
  refine ⟨by decide, by decide, by decide, by decide⟩

/-! ## Store errors (C8) -/

/-- C8, as stated, fails for `insertOne`: when the insert of `/place-order` reports
an error, its message is written to the log twice, in
`Error inserting order: <message>` and in `Error: <message>`, so two different
errors give logs that differ in more than the line `Error: <message>`. -/
theorem order_error_message_logged_twice :
    (app (testEnv { emptyReplies with insertOne := .error ⟨"boom"⟩ })
      ⟨"POST", "/place-order", ["place-order"],
        .object [("customerName", .str "Alice"), ("cart", .arr [.obj [("sku", .str "x")]])]⟩
      0).log
      = ["Request: POST /place-order", "Error inserting order: boom", "Error: boom"] ∧
    (app (testEnv { emptyReplies with insertOne := .error ⟨"bang"⟩ })
      ⟨"POST", "/place-order", ["place-order"],
        .object [("customerName", .str "Alice"), ("cart", .arr [.obj [("sku", .str "x")]])]⟩
      0).log
      = ["Request: POST /place-order", "Error inserting order: bang", "Error: bang"] := by
  refine ⟨by decide, by decide⟩

/-- C8, amended: whenever a store operation (find, insert, findOne, updateOne,
deleteOne, insertOne) reports an error to its route handler, the client receives
500 with the plain-text body `Something went wrong!`, whatever the error; the
error's message goes to the log only, in the line `Error: <message>` and, for
the `insertOne` of `/place-order`, also in `Error inserting order: <message>`.
The id is any id that reaches the store (one `new ObjectID` accepts, of 24
hexadecimal or of 12 characters), and the two GET routes also serve HEAD. -/
theorem store_error_gives_500 {σ : Type} (env : Env σ) (db : Store σ) (hdb : env.db = some db)
    (method url collectionName id : String) (objectId : ObjectId) (body : RawBody) (b : JSVal)
    (st st1 : σ) (err : JSError)
    (hm : method = "GET" ∨ method = "HEAD")
    (hb : jsonParser body = .ok b) (hn : newObjectID id = .ok objectId) :
    (db.find collectionName (.obj []) st = (.error err, st1) →
      (app env ⟨method, url, ["collection", collectionName], body⟩ st).res
        = ⟨500, .text "Something went wrong!"⟩ ∧
      (app env ⟨method, url, ["collection", collectionName], body⟩ st).log
        = ["Request: " ++ method ++ " " ++ url, "Accessing collection: " ++ collectionName,
            "Error fetching from collection: " ++ collectionName, "Error: " ++ err.message]) ∧
    (db.insert collectionName b st = (.error err, st1) →
      (app env ⟨"POST", url, ["collection", collectionName], body⟩ st).res
        = ⟨500, .text "Something went wrong!"⟩ ∧
      (app env ⟨"POST", url, ["collection", collectionName], body⟩ st).log
        = ["Request: POST " ++ url, "Accessing collection: " ++ collectionName,
            "Error inserting into collection: " ++ collectionName, "Error: " ++ err.message]) ∧
    (db.findOne collectionName (.obj [("_id", .oid objectId)]) st = (.error err, st1) →
      (app env ⟨method, url, ["collection", collectionName, id], body⟩ st).res
        = ⟨500, .text "Something went wrong!"⟩ ∧
      (app env ⟨method, url, ["collection", collectionName, id], body⟩ st).log
        = ["Request: " ++ method ++ " " ++ url, "Accessing collection: " ++ collectionName,
            "Error fetching document from collection: " ++ collectionName ++ " - ID: " ++ id,
            "Error: " ++ err.message]) ∧
    (db.updateOne collectionName (.obj [("_id", .oid objectId)]) (.obj [("$set", b)]) st
        = (.error err, st1) →
      (app env ⟨"PUT", url, ["collection", collectionName, id], body⟩ st).res
        = ⟨500, .text "Something went wrong!"⟩ ∧
      (app env ⟨"PUT", url, ["collection", collectionName, id], body⟩ st).log
        = ["Request: PUT " ++ url, "Accessing collection: " ++ collectionName,
            "Error updating document in collection: " ++ collectionName,
            "Error: " ++ err.message]) ∧
    (db.deleteOne collectionName (.obj [("_id", .oid objectId)]) st = (.error err, st1) →
      (app env ⟨"DELETE", url, ["collection", collectionName, id], body⟩ st).res
        = ⟨500, .text "Something went wrong!"⟩ ∧
      (app env ⟨"DELETE", url, ["collection", collectionName, id], body⟩ st).log
        = ["Request: DELETE " ++ url, "Accessing collection: " ++ collectionName,
            "Error deleting from collection: " ++ collectionName, "Error: " ++ err.message]) ∧
    (orderInvalid b = .ok false → db.insertOne "orders" b st = (.error err, st1) →
      (app env ⟨"POST", url, ["place-order"], body⟩ st).res
        = ⟨500, .text "Something went wrong!"⟩ ∧
      (app env ⟨"POST", url, ["place-order"], body⟩ st).log
        = ["Request: POST " ++ url, "Error inserting order: " ++ err.message,
            "Error: " ++ err.message]) := by
  have hv := isValid_of_newObjectID id objectId hn
  refine ⟨?_, ?_, ?_, ?_, ?_, ?_⟩
  · intro h
    rcases hm with hm | hm <;> subst hm <;>
      simp [app, hb, serveStatic, routes, withCollection, hdb, getCollection, h, errorHandler]
  · intro h
    simp [app, hb, serveStatic, routes, withCollection, hdb, postCollection, h, errorHandler]
  · intro h
    rcases hm with hm | hm <;> subst hm <;>
      simp [app, hb, serveStatic, routes, withCollection, hdb, getDocument, hv, hn, h,
        errorHandler]
  · intro h
    simp [app, hb, serveStatic, routes, withCollection, hdb, putDocument, hv, hn, h,
      errorHandler]
  · intro h
    simp [app, hb, serveStatic, routes, withCollection, hdb, deleteDocument, hv, hn, h,
      errorHandler]
  · intro ho h
    simp [app, hb, serveStatic, routes, placeOrder, ho, hdb, h, errorHandler]

/-- C8 (amended) on a concrete request: `deleteOne` reports `connection reset` for
the 12-character id `abcdefghijkl`. -/
theorem store_error_gives_500_witness :
    newObjectID "abcdefghijkl"
      = .ok ⟨[97, 98, 99, 100, 101, 102, 103, 104, 105, 106, 107, 108]⟩ ∧
    (app (testEnv { emptyReplies with deleteOne := .error ⟨"connection reset"⟩ })
      ⟨"DELETE", "/collection/widgets/abcdefghijkl", ["collection", "widgets", "abcdefghijkl"],
        .absent⟩ 0).res
      = ⟨500, .text "Something went wrong!"⟩ ∧
    (app (testEnv { emptyReplies with deleteOne := .error ⟨"connection reset"⟩ })
      ⟨"DELETE", "/collection/widgets/abcdefghijkl", ["collection", "widgets", "abcdefghijkl"],
        .absent⟩ 0).log
      = ["Request: DELETE " ++ "/collection/widgets/abcdefghijkl",
          "Accessing collection: " ++ "widgets",
          "Error deleting from collection: " ++ "widgets",
          "Error: " ++ (JSError.mk "connection reset").message] :=
  ⟨rfl,
    (store_error_gives_500 (testEnv { emptyReplies with deleteOne := .error ⟨"connection reset"⟩ })
      (scripted { emptyReplies with deleteOne := .error ⟨"connection reset"⟩ }) rfl
      "GET" "/collection/widgets/abcdefghijkl" "widgets" "abcdefghijkl"
      ⟨[97, 98, 99, 100, 101, 102, 103, 104, 105, 106, 107, 108]⟩ .absent (.obj []) 0 1
      ⟨"connection reset"⟩ (Or.inl rfl) rfl rfl).2.2.2.2.1 rfl⟩

/-! ## Insert, then read back (C9) -/

/-- After the assignment `doc[key] = v` the key reads as `v`. -/
theorem field_setField_self (fields : List (String × JSVal)) (key : String) (v : JSVal) :
    field (.obj (setField fields key v)) key = v := by
  induction fields with
  | nil => simp [setField, field, List.lookup]
  | cons kw rest ih =>
    obtain ⟨k, w⟩ := kw
    by_cases hk : k = key
    · subst hk
      simp [setField, field, List.lookup]
    · have hk2 : (key == k) = false := by
        simp only [beq_eq_false_iff_ne, ne_eq]
        exact fun h => hk h.symm
      simp only [field] at ih
      simp [setField, hk, field, List.lookup, hk2, ih]

/-- The assignment `doc[key] = v` leaves every other key as it was. -/
theorem field_setField_other (fields : List (String × JSVal)) (key other : String)
    (v : JSVal) (h : other ≠ key) :
    field (.obj (setField fields key v)) other = field (.obj fields) other := by
  induction fields with
  | nil =>
    have hk : (other == key) = false := by simpa using h
    simp [setField, field, List.lookup, hk]
  | cons kw rest ih =>
    obtain ⟨k, w⟩ := kw
    simp only [field] at ih
    by_cases hk : k = key
    · subst hk
      have hk2 : (other == k) = false := by simpa using h
      simp [setField, field, List.lookup, hk2]
    · by_cases ho : other = k
      · subst ho
        simp [setField, hk, field, List.lookup]
      · have hk2 : (other == k) = false := by simpa using ho
        simp [setField, hk, field, List.lookup, hk2, ih]

/-- The identifiers the store generates are twelve bytes. -/
theorem freshId_wellFormed (n : Nat) : (freshId n).wellFormed := by
  refine ⟨by simp [freshId], ?_⟩
  intro b hb
  simp only [freshId, List.mem_map] at hb
  obtain ⟨i, _, rfl⟩ := hb
  exact Nat.mod_lt _ (by norm_num)

/-- A document whose `_id` is not the identifier is not taken for it. -/
theorem hasId_false_of_ne (o : ObjectId) (doc : JSVal) (h : field doc "_id" ≠ .oid o) :
    hasId o doc = false := by
  unfold hasId
  cases hf : field doc "_id" with
  | oid p =>
    have hp : p ≠ o := fun hpo => h (by rw [hf, hpo])
    simp [hp]
  | _ => rfl

/-- A document stored under an identifier that no earlier document of its
collection carries is the one the lookup by that identifier finds. -/
theorem lookupId_append_fresh (collection : String) (o : ObjectId) (doc : JSVal)
    (docs : List (String × JSVal))
    (hfresh : ∀ other, (collection, other) ∈ docs → field other "_id" ≠ .oid o)
    (hdoc : hasId o doc = true) :
    lookupId collection o (docs ++ [(collection, doc)]) = doc := by
  induction docs with
  | nil => simp [lookupId, hdoc]
  | cons cd rest ih =>
    obtain ⟨c, d⟩ := cd
    have ih2 := ih (fun other hmem => hfresh other (List.mem_cons_of_mem _ hmem))
    by_cases hc : c = collection
    · subst hc
      have hd : hasId o d = false :=
        hasId_false_of_ne o d (hfresh d (List.mem_cons_self _ _))
      simp [lookupId, hd, ih2]
    · simp [lookupId, hc, ih2]

/-- C9: round trip over the in-memory store, which assigns a fresh identifier on
insert (one that no document already in the collection carries): for every
collection name and every single document `d` (a JSON object), POST
`/collection/:collectionName` with body `d` answers 200 with the array holding
`d` with `_id` set to the assigned identifier (every other field as in `d`), and
a following GET `/collection/:collectionName/:id`, with `:id` the 24 hexadecimal
characters of that `_id`, answers 200 with that same document. -/
theorem insert_then_get_round_trip (env : Env MemState) (hdb : env.db = some memStore)
    (url1 url2 collectionName : String) (fields : List (String × JSVal))
    (body2 : RawBody) (b2 : JSVal) (st : MemState)
    (hb2 : jsonParser body2 = .ok b2)
    (hfresh : ∀ other, (collectionName, other) ∈ st.docs →
      field other "_id" ≠ .oid (freshId st.counter)) :
    (app env ⟨"POST", url1, ["collection", collectionName], .object fields⟩ st).res
      = ⟨200, .json (.arr [.obj (setField fields "_id" (.oid (freshId st.counter)))])⟩ ∧
    field (.obj (setField fields "_id" (.oid (freshId st.counter)))) "_id"
      = .oid (freshId st.counter) ∧
    (∀ key, key ≠ "_id" →
      field (.obj (setField fields "_id" (.oid (freshId st.counter)))) key
        = field (.obj fields) key) ∧
    (app env ⟨"GET", url2, ["collection", collectionName, toHexString (freshId st.counter)],
        body2⟩
      (app env ⟨"POST", url1, ["collection", collectionName], .object fields⟩ st).state).res
      = ⟨200, .json (.obj (setField fields "_id" (.oid (freshId st.counter))))⟩ ∧
    (app env ⟨"GET", url2, ["collection", collectionName, toHexString (freshId st.counter)],
        body2⟩
      (app env ⟨"POST", url1, ["collection", collectionName], .object fields⟩ st).state).calls
      = [.findOne collectionName (.obj [("_id", .oid (freshId st.counter))])] := by
  obtain ⟨hchk, hnew⟩ := hex_round_trip (freshId st.counter) (freshId_wellFormed st.counter)
  have hv := isValid_of_hex _ hchk
  have hself := field_setField_self fields "_id" (.oid (freshId st.counter))
  have hdoc : hasId (freshId st.counter)
      (.obj (setField fields "_id" (.oid (freshId st.counter)))) = true := by
    unfold hasId
    rw [hself]
    simp
  have hlook := lookupId_append_fresh collectionName (freshId st.counter)
    (.obj (setField fields "_id" (.oid (freshId st.counter)))) st.docs hfresh hdoc
  have hstate : (app env ⟨"POST", url1, ["collection", collectionName], .object fields⟩
      st).state = (addDoc collectionName fields st).2 := by
    simp [app, jsonParser, serveStatic, routes, withCollection, hdb, postCollection, memStore]
  refine ⟨?_, hself, ?_, ?_, ?_⟩
  · simp [app, jsonParser, serveStatic, routes, withCollection, hdb, postCollection, memStore,
      addDoc]
  · intro key hkey
    exact field_setField_other fields "_id" key _ hkey
  · rw [hstate]
    simp [app, hb2, serveStatic, routes, withCollection, hdb, getDocument, hv, hnew, memStore,
      filterId, addDoc, hlook, truthy]
  · rw [hstate]
    simp [app, hb2, serveStatic, routes, withCollection, hdb, getDocument, hv, hnew, memStore,
      filterId, addDoc, hlook, truthy]

/-- C9 on concrete requests: `{a: 1}` posted to `widgets` in a store that already
holds a document of that collection, then read back under the returned id. -/
theorem insert_then_get_round_trip_witness :
    toHexString (freshId 1) = "000000000000000000000001" ∧
    (app memEnv ⟨"POST", "/collection/widgets", ["collection", "widgets"],
        .object [("a", .num 1)]⟩
      ⟨[("widgets", .obj [("b", .num 2), ("_id", .oid (freshId 0))])], 1⟩).res
      = ⟨200, .json (.arr [.obj (setField [("a", .num 1)] "_id" (.oid (freshId 1)))])⟩ ∧
    (app memEnv ⟨"GET", "/collection/widgets/000000000000000000000001",
        ["collection", "widgets", toHexString (freshId 1)], .absent⟩
      (app memEnv ⟨"POST", "/collection/widgets", ["collection", "widgets"],
          .object [("a", .num 1)]⟩
        ⟨[("widgets", .obj [("b", .num 2), ("_id", .oid (freshId 0))])], 1⟩).state).res
      = ⟨200, .json (.obj (setField [("a", .num 1)] "_id" (.oid (freshId 1))))⟩ :=
  have h := insert_then_get_round_trip memEnv rfl "/collection/widgets"
    "/collection/widgets/000000000000000000000001" "widgets" [("a", .num 1)] .absent (.obj [])
    ⟨[("widgets", .obj [("b", .num 2), ("_id", .oid (freshId 0))])], 1⟩ rfl
    (by
      intro other hmem
      simp only [List.mem_singleton, Prod.mk.injEq, true_and] at hmem
      subst hmem
      intro heq
      have hid : freshId 0 = freshId 1 := by simpa [field, List.lookup] using heq
      exact absurd hid (by decide))
  ⟨by decide, h.1, h.2.2.2.1⟩

/-! ## Requests before the database handle exists (C10) -/

/-- C10: while `db` is undefined, every request to a `/collection/:collectionName`
route (whatever the id, well-formed or not) and every POST `/place-order` whose
body passes the shape check ends in the error handler: 500 with
`Something went wrong!`, no store call.  GET `/` and a POST `/place-order` whose
body fails the shape check do not depend on the handle at all: their outcome is
the same in every environment, 200 with the banner and 400 with
`{msg: 'Invalid order data'}`. -/
theorem undefined_db_gives_500 {σ : Type} (env : Env σ) (hdb : env.db = none)
    (method url collectionName id : String) (body : RawBody) (b : JSVal) (st : σ)
    (hb : jsonParser body = .ok b) :
    ((method = "GET" ∨ method = "POST") →
      (app env ⟨method, url, ["collection", collectionName], body⟩ st).res
        = ⟨500, .text "Something went wrong!"⟩ ∧
      (app env ⟨method, url, ["collection", collectionName], body⟩ st).calls = []) ∧
    ((method = "GET" ∨ method = "PUT" ∨ method = "DELETE") →
      (app env ⟨method, url, ["collection", collectionName, id], body⟩ st).res
        = ⟨500, .text "Something went wrong!"⟩ ∧
      (app env ⟨method, url, ["collection", collectionName, id], body⟩ st).calls = []) ∧
    (orderInvalid b = .ok false →
      (app env ⟨"POST", url, ["place-order"], body⟩ st).res
        = ⟨500, .text "Something went wrong!"⟩ ∧
      (app env ⟨"POST", url, ["place-order"], body⟩ st).calls = []) ∧
    (orderInvalid b = .ok true →
      (app env ⟨"POST", url, ["place-order"], body⟩ st).res
        = ⟨400, .json (.obj [("msg", .str "Invalid order data")])⟩ ∧
      ∀ env2 : Env σ, app env2 ⟨"POST", url, ["place-order"], body⟩ st
        = app env ⟨"POST", url, ["place-order"], body⟩ st) ∧
    ((app env ⟨"GET", url, [], body⟩ st).res
        = ⟨200, .text "Select a collection, e.g., /collection/messages"⟩ ∧
      ∀ env2 : Env σ, app env2 ⟨"GET", url, [], body⟩ st = app env ⟨"GET", url, [], body⟩ st) := by
  refine ⟨?_, ?_, ?_, ?_, ?_⟩
  · intro hm
    rcases hm with h | h <;> subst h <;>
      simp [app, hb, serveStatic, routes, withCollection, hdb, errorHandler]
  · intro hm
    rcases hm with h | h | h <;> subst h <;>
      simp [app, hb, serveStatic, routes, withCollection, hdb, errorHandler]
  · intro ho
    simp [app, hb, serveStatic, routes, placeOrder, ho, hdb, errorHandler]
  · intro ho
    refine ⟨?_, ?_⟩
    · simp [app, hb, serveStatic, routes, placeOrder, ho]
    · intro env2
      simp [app, hb, serveStatic, routes, placeOrder, ho]
  · refine ⟨?_, ?_⟩
    · simp [app, hb, serveStatic, routes, homepage]
    · intro env2
      simp [app, hb, serveStatic, routes, homepage]

/-- C10 on a concrete request: GET of one document while `db` is undefined. -/
theorem undefined_db_gives_500_witness :
    (app unconnectedEnv ⟨"GET", "/collection/widgets/42", ["collection", "widgets", "42"],
      .absent⟩ 0).res = ⟨500, .text "Something went wrong!"⟩ ∧
    (app unconnectedEnv ⟨"GET", "/collection/widgets/42", ["collection", "widgets", "42"],
      .absent⟩ 0).calls = [] :=
  (undefined_db_gives_500 unconnectedEnv rfl "GET" "/collection/widgets/42" "widgets" "42"
    .absent (.obj []) 0 rfl).2.1 (Or.inl rfl)

end Server1
